import Mathlib

/-!
Verification development for a small Express payment server ("pago por link"
over the Open Payments protocol).  The source (src/server.js and its variant
src/unnamed/part_000) exposes four routes:

  GET  /linkpay       start an interactive payment flow, ends in a redirect
  GET  /pay/callback  resume a suspended flow after user consent
  POST /quote         start the two-call flow, stores a pending grant
  POST /pago          execute the two-call flow for a stored pending grant

The embedding below translates those handlers into pure Lean functions.  The
remote Open Payments client is modelled as a record of oracle functions
(`Client`), each returning `Except UpErr _`; the two in-memory `Map`s become
association lists inside `ServerState`; every remote call a handler issues is
recorded in an output trace.  JavaScript number arithmetic (used by `toMinor`)
is modelled exactly: doubles are the rationals obtained by rounding to the
nearest binary64 (`fl`), and `Math.round` is `⌊x + 1/2⌋` on the double's exact
rational value, as ECMA-262 specifies.
-/

set_option maxRecDepth 100000

unseal Rat.mul Rat.add Rat.inv Rat.sub

namespace LinkPay

/-- Fuel-driven base-2 logarithm on naturals; `log2fuel f n` halves `n` at most
`f` times, so for `f ≥ n` it computes `⌊log₂ n⌋` for `n ≥ 1`. -/
def log2fuel : Nat → Nat → Nat
  | 0, _ => 0
  | f + 1, n => if 2 ≤ n then log2fuel f (n / 2) + 1 else 0

/-- Floor of log base 2: `⌊log₂ n⌋` for `n ≥ 1` (0 when `n = 0`). -/
def natLog2 (n : Nat) : Nat := log2fuel n n

/-- Floor of log base 2 of a positive rational: the unique `e` with `2^e ≤ q < 2^(e+1)`. -/
def floorLog2 (q : ℚ) : ℤ :=
  if q.den ≤ q.num.toNat then (natLog2 (q.num.toNat / q.den) : ℤ)
  else -((natLog2 ((q.den - 1) / q.num.toNat) : ℤ) + 1)

/-- Round a rational to the nearest integer, ties to even (IEEE default). -/
def roundHalfEven (q : ℚ) : ℤ :=
  let f := ⌊q⌋
  if q - f < 1 / 2 then f
  else if (1 : ℚ) / 2 < q - f then f + 1
  else if f % 2 = 0 then f else f + 1

/-- Nearest binary64 value of a positive rational (normal range: 53-bit
significand, no overflow/subnormal handling, which the amounts in scope never
reach). -/
def flPos (q : ℚ) : ℚ :=
  let e := floorLog2 q
  (roundHalfEven (q * 2 ^ (52 - e)) : ℚ) * 2 ^ (e - 52)

/-- Round an exact rational to the nearest IEEE binary64 (round to nearest,
ties to even): the value JavaScript arithmetic actually produces. -/
def fl (q : ℚ) : ℚ :=
  if q = 0 then 0 else if q < 0 then -flPos (-q) else flPos q

/-- ECMA-262 `Math.round` on the exact rational value of a double: the closest
integer, ties toward +∞, i.e. `⌊x + 1/2⌋`. -/
def jsRound (q : ℚ) : ℤ := ⌊q + 1 / 2⌋

/-- A JavaScript number: NaN, the two infinities, or a finite value.  A finite
double is represented by its exact rational value. -/
inductive JSNum where
  | nan
  | posInf
  | negInf
  | num (q : ℚ)
deriving DecidableEq

/-- Model of `Number.isFinite`. -/
def JSNum.isFinite : JSNum → Bool
  | .num _ => true
  | _ => false

/-- The JavaScript comparison `x <= 0` (false on NaN). -/
def JSNum.le0 : JSNum → Bool
  | .num q => q ≤ 0
  | .negInf => true
  | _ => false

/-- The guard `!Number.isFinite(amountMajor) || amountMajor <= 0` shared by
`/linkpay` and `/quote`. -/
def amountInvalid (a : JSNum) : Bool := !a.isFinite || a.le0

/-- src/server.js lines 66-67 (= part_000 lines 175-176):
`String(Math.round(Number(amountMajor) * Math.pow(10, Number(scale ?? 0))))`.
The multiplication is binary64 multiplication (`fl` of the exact product);
`Math.pow (10, s)` is the double nearest `10^s` (exact for the scales in
scope); `Math.round` is ECMA `jsRound`; `String` of an integral double in the
safe range prints its decimal digits. -/
def toMinor (amountMajor : JSNum) (scale : Option ℕ) : String :=
  match amountMajor with
  | .num q => toString (jsRound (fl (q * fl (10 ^ scale.getD 0))))
  | .nan => "NaN"
  | .posInf => "Infinity"
  | .negInf => "-Infinity"

example : toMinor (.num 100) (some 2) = "10000" := by decide

example : fl (201 / 200) = 4526117625507348 / 2 ^ 52 := by decide

example : toMinor (.num (fl (201 / 200))) (some 2) = "100" := by decide

example : jsRound ((201 / 200) * 10 ^ 2) = 101 := by decide

/-- UTF-8 byte sequence of a character (scalar values; the strings in scope
are ASCII). -/
def utf8Bytes (c : Char) : List Nat :=
  let n := c.toNat
  if n < 128 then [n]
  else if n < 2048 then [192 + n / 64, 128 + n % 64]
  else if n < 65536 then [224 + n / 4096, 128 + n / 64 % 64, 128 + n % 64]
  else [240 + n / 262144, 128 + n / 4096 % 64, 128 + n / 64 % 64, 128 + n % 64]

/-- Uppercase hexadecimal digit. -/
def hexDigit (n : Nat) : Char :=
  if n < 10 then Char.ofNat (48 + n) else Char.ofNat (55 + n)

/-- The characters `encodeURIComponent` leaves unescaped
(`A-Z a-z 0-9 - _ . ! ~ * ( )` and the apostrophe, code point 39). -/
def uriUnreserved (c : Char) : Bool :=
  c.isAlphanum || c = '-' || c = '_' || c = '.' || c = '!' || c = '~' ||
    c = '*' || c.toNat == 39 || c = '(' || c = ')'

/-- JavaScript `encodeURIComponent`: unreserved characters kept, everything
else percent-encoded byte-wise in UTF-8. -/
def encodeURIComponent (s : String) : String :=
  s.data.foldl
    (fun acc c =>
      if uriUnreserved c then acc.push c
      else (utf8Bytes c).foldl
        (fun a b => ((a.push '%').push (hexDigit (b / 16))).push (hexDigit (b % 16)))
        acc)
    ""

example : encodeURIComponent "a-b c" = "a-b%20c" := by decide

/-- One suspended flow: what `/linkpay` stashes in `paySessions` and `/quote`
in `pendingGrants` (`{ continueUri, continueAccessToken, quoteId }`). -/
structure Stash where
  continueUri : String
  continueAccessToken : String
  quoteId : String
deriving DecidableEq

/-- A JavaScript `Map` from string keys to stashes, as an association list
with unique keys. -/
def SessionMap := List (String × Stash)
deriving DecidableEq

/-- Model of `Map.get` / `Map.has`. -/
def mget : SessionMap → String → Option Stash
  | [], _ => none
  | (k', v) :: t, k => if k' = k then some v else mget t k

/-- Model of `Map.delete`. -/
def mdel : SessionMap → String → SessionMap
  | [], _ => []
  | (k', v) :: t, k => if k' = k then mdel t k else (k', v) :: mdel t k

/-- Model of `Map.set` (overwrite if present). -/
def mset (m : SessionMap) (k : String) (v : Stash) : SessionMap :=
  (k, v) :: mdel m k

/-- The two global maps `paySessions` and `pendingGrants`. -/
structure ServerState where
  paySessions : SessionMap
  pendingGrants : SessionMap
deriving DecidableEq

/-- Environment configuration consumed by the handlers. -/
structure Config where
  baseUrl : String
  sendingWalletUrl : String
  receivingWalletUrl : String

/-- A resolved wallet address (`client.walletAddress.get` result): the fields
the handlers read.  `assetScale` is optional; the handlers default it
(`assetScale ?? 2`). -/
structure Wallet where
  id : String
  assetCode : String
  assetScale : Option ℕ
  authServer : String
  resourceServer : String
deriving DecidableEq

/-- A protocol amount `{ assetCode, assetScale, value }` with the minor-unit
value as a digit string. -/
structure Amount where
  assetCode : String
  assetScale : ℕ
  value : String
deriving DecidableEq

/-- A grant continuation handle `{ continue.uri, continue.access_token.value }`. -/
structure Continuation where
  uri : String
  accessToken : String
deriving DecidableEq

/-- Result of `grant.request` / `grant.continue`: either a finalized grant
carrying a usable access token, or a pending (interactive) grant carrying an
interaction redirect.  Both carry a continuation handle.
`isFinalizedGrant` discriminates on the presence of the access token. -/
inductive GrantResult where
  | finalized (accessTokenValue : String) (cont : Continuation)
  | pending (cont : Continuation) (interactRedirect : String)
deriving DecidableEq

/-- Model of `isFinalizedGrant` from `@interledger/open-payments`. -/
def isFinalizedGrant : GrantResult → Bool
  | .finalized _ _ => true
  | .pending _ _ => false

/-- The continuation handle of a grant result (`grant.continue`), present in
both shapes. -/
def GrantResult.cont : GrantResult → Continuation
  | .finalized _ c => c
  | .pending c _ => c

/-- A created resource (incoming or outgoing payment): the handlers only read
its `id`. -/
structure Resource where
  id : String
deriving DecidableEq

/-- A created quote: the handlers read `id` and `debitAmount`. -/
structure QuoteRes where
  id : String
  debitAmount : Amount
deriving DecidableEq

/-- An `OpenPaymentsClientError` (upstream status / code / description). -/
structure UpErr where
  status : ℕ
  code : String
  description : String
deriving DecidableEq

/-- The access field of a grant request: the three shapes the server sends. -/
inductive AccessItem where
  | incomingPayment
  | quoteAccess
  | outgoingPayment (debitAmount : Amount) (identifier : String)
deriving DecidableEq

/-- The `finish` part of an interaction request:
`{ method: "redirect", uri, nonce }`. -/
structure FinishReq where
  uri : String
  nonce : String
deriving DecidableEq

/-- An `interact` request: `start` modes plus an optional finish callback. -/
structure InteractReq where
  start : List String
  finish : Option FinishReq
deriving DecidableEq

/-- One remote call issued by a handler, with the arguments it was given;
handlers return the list of calls they made, in order. -/
inductive RemoteCall where
  | walletGet (url : String)
  | grantRequest (authServer : String) (access : AccessItem) (interact : Option InteractReq)
  | incomingPaymentCreate (resourceServer accessToken walletId : String) (incomingAmount : Amount)
  | quoteCreate (resourceServer accessToken walletId receiver : String)
  | grantContinue (uri accessToken : String) (interactRef : Option String)
  | outgoingPaymentCreate (resourceServer accessToken walletId quoteId : String)
deriving DecidableEq

/-- The external Open Payments client, as a deterministic oracle: one function
per remote operation, each able to fail with an upstream error. -/
structure Client where
  walletGet : String → Except UpErr Wallet
  grantRequest : String → AccessItem → Option InteractReq → Except UpErr GrantResult
  incomingPaymentCreate : String → String → String → Amount → Except UpErr Resource
  quoteCreate : String → String → String → String → Except UpErr QuoteRes
  grantContinue : String → String → Option String → Except UpErr GrantResult
  outgoingPaymentCreate : String → String → String → String → Except UpErr Resource

/-- Caller-visible outcome of `GET /linkpay`. -/
inductive LinkpayOutcome where
  | invalidAmount
  | redirect (uri : String)
  | upstreamError (e : UpErr)
  | internalError
deriving DecidableEq

/-- Caller-visible outcome of `GET /pay/callback`. -/
inductive CallbackOutcome where
  | sessionNotFound
  | consentIncomplete
  | success (paymentId : String)
  | upstreamError (e : UpErr)
deriving DecidableEq

/-- Caller-visible outcome of `POST /quote`. -/
inductive QuoteOutcome where
  | invalidAmount
  | ok (incomingPaymentId : String) (debitAmount : Amount) (interactRedirect : String)
  | upstreamError (e : UpErr)
  | internalError
deriving DecidableEq

/-- Caller-visible outcome of `POST /pago`. -/
inductive PagoOutcome where
  | noPendingGrant
  | consentIncomplete
  | success (paymentId : String)
  | upstreamError (e : UpErr)
deriving DecidableEq

/-- Handler of `GET /linkpay` (src/server.js lines 79-179, part_000 lines 188-357).
`amount` is `Number(req.query.amount)`; `stateTok` and `nonce` are the two
`crypto.randomUUID()` values generated for this invocation.  `sendC` / `recvC`
are the authenticated clients (server.js uses one client for both roles,
part_000 a separate receiver client; instantiating `recvC := sendC` recovers
server.js).  A thrown `OpenPaymentsClientError` reaches the catch block as
`upstreamError`; reading a missing field (e.g. `.access_token` of a pending
grant, or `.interact` of a finalized grant) throws a `TypeError`, reaching the
same catch block, modelled as `internalError`. -/
def linkpay (cfg : Config) (st : ServerState) (amount : JSNum)
    (stateTok nonce : String) (sendC recvC : Client) :
    LinkpayOutcome × ServerState × List RemoteCall :=
  if amountInvalid amount then (.invalidAmount, st, [])
  else
    match sendC.walletGet cfg.sendingWalletUrl with
    | .error e => (.upstreamError e, st, [.walletGet cfg.sendingWalletUrl])
    | .ok sw =>
      match recvC.walletGet cfg.receivingWalletUrl with
      | .error e => (.upstreamError e, st,
          [.walletGet cfg.sendingWalletUrl, .walletGet cfg.receivingWalletUrl])
      | .ok rw =>
        let assetScale := rw.assetScale.getD 2
        let t3 : List RemoteCall :=
          [.walletGet cfg.sendingWalletUrl, .walletGet cfg.receivingWalletUrl,
           .grantRequest rw.authServer .incomingPayment none]
        match recvC.grantRequest rw.authServer .incomingPayment none with
        | .error e => (.upstreamError e, st, t3)
        | .ok (.pending _ _) => (.internalError, st, t3)
        | .ok (.finalized ipTok _) =>
          let ipAmount : Amount := ⟨rw.assetCode, assetScale, toMinor amount (some assetScale)⟩
          let t4 := t3 ++ [.incomingPaymentCreate rw.resourceServer ipTok rw.id ipAmount]
          match recvC.incomingPaymentCreate rw.resourceServer ipTok rw.id ipAmount with
          | .error e => (.upstreamError e, st, t4)
          | .ok ip =>
            let t5 := t4 ++ [.grantRequest sw.authServer .quoteAccess none]
            match sendC.grantRequest sw.authServer .quoteAccess none with
            | .error e => (.upstreamError e, st, t5)
            | .ok (.pending _ _) => (.internalError, st, t5)
            | .ok (.finalized qTok _) =>
              let t6 := t5 ++ [.quoteCreate sw.resourceServer qTok sw.id ip.id]
              match sendC.quoteCreate sw.resourceServer qTok sw.id ip.id with
              | .error e => (.upstreamError e, st, t6)
              | .ok quote =>
                let finishUri :=
                  cfg.baseUrl ++ "/pay/callback?state=" ++ encodeURIComponent stateTok
                let opAccess : AccessItem := .outgoingPayment quote.debitAmount sw.id
                let opInteract : InteractReq := ⟨["redirect"], some ⟨finishUri, nonce⟩⟩
                let t7 := t6 ++ [.grantRequest sw.authServer opAccess (some opInteract)]
                match sendC.grantRequest sw.authServer opAccess (some opInteract) with
                | .error e => (.upstreamError e, st, t7)
                | .ok g =>
                  let stash : Stash := ⟨(g.cont).uri, (g.cont).accessToken, quote.id⟩
                  let st' := { st with paySessions := mset st.paySessions stateTok stash }
                  match g with
                  | .finalized _ _ => (.internalError, st', t7)
                  | .pending _ redir => (.redirect redir, st', t7)

/-- Handler of `GET /pay/callback` (server.js lines 182-245, part_000 lines 360-469).
`state?` and `iref` are `req.query.state` / `req.query.interact_ref`.  The
guard `!state || !paySessions.has(state)` treats an absent and an empty
`state` alike; when it fires nothing else happens.  The session is deleted
only after the outgoing payment was created. -/
def payCallback (cfg : Config) (st : ServerState) (state? : Option String)
    (iref : Option String) (sendC : Client) :
    CallbackOutcome × ServerState × List RemoteCall :=
  match state? with
  | none => (.sessionNotFound, st, [])
  | some s =>
    if s = "" then (.sessionNotFound, st, [])
    else
      match mget st.paySessions s with
      | none => (.sessionNotFound, st, [])
      | some stash =>
        let t1 : List RemoteCall :=
          [.grantContinue stash.continueUri stash.continueAccessToken iref]
        match sendC.grantContinue stash.continueUri stash.continueAccessToken iref with
        | .error e => (.upstreamError e, st, t1)
        | .ok (.pending _ _) => (.consentIncomplete, st, t1)
        | .ok (.finalized tok _) =>
          let t2 := t1 ++ [.walletGet cfg.sendingWalletUrl]
          match sendC.walletGet cfg.sendingWalletUrl with
          | .error e => (.upstreamError e, st, t2)
          | .ok sw =>
            let t3 := t2 ++ [.outgoingPaymentCreate sw.resourceServer tok sw.id stash.quoteId]
            match sendC.outgoingPaymentCreate sw.resourceServer tok sw.id stash.quoteId with
            | .error e => (.upstreamError e, st, t3)
            | .ok p =>
              (.success p.id, { st with paySessions := mdel st.paySessions s }, t3)

/-- Handler of `POST /quote` (server.js lines 250-346, part_000 lines 474-570).
`amount` is `Number(req.body?.amountMXN)`.  All remote calls go through the
sending client in both source variants.  The outgoing-payment grant is
requested with `interact: { start: ["redirect"] }` and no finish callback;
the pending grant is stashed in `pendingGrants` keyed by the incoming
payment's id. -/
def quoteRoute (cfg : Config) (st : ServerState) (amount : JSNum) (sendC : Client) :
    QuoteOutcome × ServerState × List RemoteCall :=
  if amountInvalid amount then (.invalidAmount, st, [])
  else
    match sendC.walletGet cfg.sendingWalletUrl with
    | .error e => (.upstreamError e, st, [.walletGet cfg.sendingWalletUrl])
    | .ok sw =>
      match sendC.walletGet cfg.receivingWalletUrl with
      | .error e => (.upstreamError e, st,
          [.walletGet cfg.sendingWalletUrl, .walletGet cfg.receivingWalletUrl])
      | .ok rw =>
        let assetScale := rw.assetScale.getD 2
        let t3 : List RemoteCall :=
          [.walletGet cfg.sendingWalletUrl, .walletGet cfg.receivingWalletUrl,
           .grantRequest rw.authServer .incomingPayment none]
        match sendC.grantRequest rw.authServer .incomingPayment none with
        | .error e => (.upstreamError e, st, t3)
        | .ok (.pending _ _) => (.internalError, st, t3)
        | .ok (.finalized ipTok _) =>
          let ipAmount : Amount := ⟨rw.assetCode, assetScale, toMinor amount (some assetScale)⟩
          let t4 := t3 ++ [.incomingPaymentCreate rw.resourceServer ipTok rw.id ipAmount]
          match sendC.incomingPaymentCreate rw.resourceServer ipTok rw.id ipAmount with
          | .error e => (.upstreamError e, st, t4)
          | .ok ip =>
            let t5 := t4 ++ [.grantRequest sw.authServer .quoteAccess none]
            match sendC.grantRequest sw.authServer .quoteAccess none with
            | .error e => (.upstreamError e, st, t5)
            | .ok (.pending _ _) => (.internalError, st, t5)
            | .ok (.finalized qTok _) =>
              let t6 := t5 ++ [.quoteCreate sw.resourceServer qTok sw.id ip.id]
              match sendC.quoteCreate sw.resourceServer qTok sw.id ip.id with
              | .error e => (.upstreamError e, st, t6)
              | .ok quote =>
                let opAccess : AccessItem := .outgoingPayment quote.debitAmount sw.id
                let opInteract : InteractReq := ⟨["redirect"], none⟩
                let t7 := t6 ++ [.grantRequest sw.authServer opAccess (some opInteract)]
                match sendC.grantRequest sw.authServer opAccess (some opInteract) with
                | .error e => (.upstreamError e, st, t7)
                | .ok g =>
                  let stash : Stash := ⟨(g.cont).uri, (g.cont).accessToken, quote.id⟩
                  let st' := { st with pendingGrants := mset st.pendingGrants ip.id stash }
                  match g with
                  | .finalized _ _ => (.internalError, st', t7)
                  | .pending _ redir => (.ok ip.id quote.debitAmount redir, st', t7)

/-- Handler of `POST /pago` (server.js lines 349-393, part_000 lines 573-617).
`key?` is `req.body?.incomingPaymentId`.  The stash lookup happens before any
remote call; the wallet lookup precedes the grant continuation; the
continuation is invoked without an interaction reference; the registry entry
is deleted only after the outgoing payment was created. -/
def pago (cfg : Config) (st : ServerState) (key? : Option String) (sendC : Client) :
    PagoOutcome × ServerState × List RemoteCall :=
  match key?.bind (fun k => (mget st.pendingGrants k).map (fun v => (k, v))) with
  | none => (.noPendingGrant, st, [])
  | some (k, stash) =>
    let t1 : List RemoteCall := [.walletGet cfg.sendingWalletUrl]
    match sendC.walletGet cfg.sendingWalletUrl with
    | .error e => (.upstreamError e, st, t1)
    | .ok sw =>
      let t2 := t1 ++ [.grantContinue stash.continueUri stash.continueAccessToken none]
      match sendC.grantContinue stash.continueUri stash.continueAccessToken none with
      | .error e => (.upstreamError e, st, t2)
      | .ok (.pending _ _) => (.consentIncomplete, st, t2)
      | .ok (.finalized tok _) =>
        let t3 := t2 ++ [.outgoingPaymentCreate sw.resourceServer tok sw.id stash.quoteId]
        match sendC.outgoingPaymentCreate sw.resourceServer tok sw.id stash.quoteId with
        | .error e => (.upstreamError e, st, t3)
        | .ok p =>
          (.success p.id, { st with pendingGrants := mdel st.pendingGrants k }, t3)

/-!
Interleaving model of `GET /pay/callback` for the concurrency claim.  The
handler is an `async` function: it runs atomically between `await`
expressions, and every shared-map access (`has`/`get` at the start,
`delete` at the end) sits inside such a synchronous block.  The suspension
points are the three awaited remote calls.  `TPhase` is the program counter of
one in-flight request; `threadStep` is exactly one resume slice of the
handler: it consumes the pending remote call's result and runs the following
synchronous block.  The third component counts outgoing payments created
upstream (one per successful `outgoingPayment.create`). -/

/-- Program counter of one in-flight `/pay/callback` request, between
`await`s.  `s` is the flow token, `stash` the session data read at entry. -/
inductive TPhase where
  | start
  | awaitContinue (s : String) (stash : Stash)
  | awaitWallet (s : String) (stash : Stash) (accessTokenValue : String)
  | awaitPay (s : String) (stash : Stash) (accessTokenValue : String) (sw : Wallet)
  | finished (o : CallbackOutcome)
deriving DecidableEq

/-- The per-request constants of one `/pay/callback` invocation. -/
structure ThreadCtx where
  cfg : Config
  state? : Option String
  iref : Option String
  client : Client

/-- One atomic slice of the `/pay/callback` handler: from one suspension
point to the next.  Mirrors `payCallback` cut at its `await`s. -/
def threadStep (ctx : ThreadCtx) (m : SessionMap) : TPhase → SessionMap × TPhase × ℕ
  | .start =>
    match ctx.state? with
    | none => (m, .finished .sessionNotFound, 0)
    | some s =>
      if s = "" then (m, .finished .sessionNotFound, 0)
      else
        match mget m s with
        | none => (m, .finished .sessionNotFound, 0)
        | some stash => (m, .awaitContinue s stash, 0)
  | .awaitContinue s stash =>
    match ctx.client.grantContinue stash.continueUri stash.continueAccessToken ctx.iref with
    | .error e => (m, .finished (.upstreamError e), 0)
    | .ok (.pending _ _) => (m, .finished .consentIncomplete, 0)
    | .ok (.finalized tok _) => (m, .awaitWallet s stash tok, 0)
  | .awaitWallet s stash tok =>
    match ctx.client.walletGet ctx.cfg.sendingWalletUrl with
    | .error e => (m, .finished (.upstreamError e), 0)
    | .ok sw => (m, .awaitPay s stash tok sw, 0)
  | .awaitPay s stash tok sw =>
    match ctx.client.outgoingPaymentCreate sw.resourceServer tok sw.id stash.quoteId with
    | .error e => (m, .finished (.upstreamError e), 0)
    | .ok p => (mdel m s, .finished (.success p.id), 1)
  | .finished o => (m, .finished o, 0)

/-- Run two concurrent `/pay/callback` requests under an explicit schedule:
`true` advances request A by one slice, `false` request B.  Returns the final
shared map, both program counters, and the number of outgoing payments
created upstream. -/
def runSched (A B : ThreadCtx) : List Bool → SessionMap → TPhase → TPhase → ℕ →
    SessionMap × TPhase × TPhase × ℕ
  | [], m, pa, pb, n => (m, pa, pb, n)
  | true :: rest, m, pa, pb, n =>
    match threadStep A m pa with
    | (m', pa', k) => runSched A B rest m' pa' pb (n + k)
  | false :: rest, m, pa, pb, n =>
    match threadStep B m pb with
    | (m', pb', k) => runSched A B rest m' pa pb' (n + k)

/-!  Concrete fixtures used by witnesses and counterexamples. -/

/-- A concrete configuration. -/
def cfg0 : Config := ⟨"http://localhost:5500", "https://wallet.example/sender",
  "https://wallet.example/receiver"⟩

/-- A concrete sender wallet. -/
def senderW : Wallet := ⟨"https://wallet.example/sender", "MXN", some 2,
  "https://auth.example/sender", "https://rs.example/sender"⟩

/-- A concrete receiver wallet. -/
def receiverW : Wallet := ⟨"https://wallet.example/receiver", "MXN", some 2,
  "https://auth.example/receiver", "https://rs.example/receiver"⟩

/-- A receiver wallet whose descriptor carries no asset scale. -/
def receiverWNoScale : Wallet := ⟨"https://wallet.example/receiver", "MXN", none,
  "https://auth.example/receiver", "https://rs.example/receiver"⟩

/-- A concrete stashed session. -/
def stash0 : Stash := ⟨"https://auth.example/continue/1", "CONT-TOKEN", "https://rs.example/quote/1"⟩

/-- A server state holding one flow session under token `t1` and one pending
grant under receivable id `ip1`. -/
def st0 : ServerState := ⟨[("t1", stash0)], [("ip1", stash0)]⟩

/-- A concrete upstream error. -/
def e0 : UpErr := ⟨403, "access_denied", "denied by authorization server"⟩

/-- An oracle on which every remote call succeeds: wallet lookups resolve the
two fixture wallets, non-interactive grant requests finalize, interactive
ones stay pending, and resource creations return fixed ids. -/
def okClient : Client where
  walletGet := fun u =>
    if u = cfg0.sendingWalletUrl then .ok senderW else .ok receiverW
  grantRequest := fun _ _ i =>
    match i with
    | none => .ok (.finalized "GRANT-TOKEN" ⟨"https://auth.example/continue/0", "CT0"⟩)
    | some _ => .ok (.pending ⟨"https://auth.example/continue/1", "CONT-TOKEN"⟩
        "https://auth.example/interact/1")
  incomingPaymentCreate := fun _ _ _ _ => .ok ⟨"ip1"⟩
  quoteCreate := fun _ _ _ _ => .ok ⟨"https://rs.example/quote/1", ⟨"MXN", 2, "10017"⟩⟩
  grantContinue := fun _ _ _ => .ok (.finalized "FINAL-TOKEN" ⟨"https://auth.example/continue/2", "CT2"⟩)
  outgoingPaymentCreate := fun _ _ _ _ => .ok ⟨"op1"⟩

/-- Like `okClient`, but whose receiver wallet carries no asset scale. -/
def okClientNoScale : Client := { okClient with
  walletGet := fun u =>
    if u = cfg0.sendingWalletUrl then .ok senderW else .ok receiverWNoScale }

/-- Like `okClient`, but grant continuation reports a still-pending grant. -/
def pendingClient : Client := { okClient with
  grantContinue := fun _ _ _ => .ok (.pending ⟨"https://auth.example/continue/2", "CT2"⟩
    "https://auth.example/interact/2") }

/-- Like `okClient`, but incoming payment creation (the receivable) fails. -/
def failReceivableClient : Client := { okClient with
  incomingPaymentCreate := fun _ _ _ _ => .error e0 }

/-- Like `okClient`, but the spend (outgoing-payment) grant request fails. -/
def failSpendGrantClient : Client := { okClient with
  grantRequest := fun _ a i =>
    match a with
    | .outgoingPayment _ _ => .error e0
    | _ =>
      match i with
      | none => .ok (.finalized "GRANT-TOKEN" ⟨"https://auth.example/continue/0", "CT0"⟩)
      | some _ => .ok (.pending ⟨"https://auth.example/continue/1", "CONT-TOKEN"⟩
          "https://auth.example/interact/1") }

/-- Like `okClient`, but grant continuation fails upstream. -/
def failContinueClient : Client := { okClient with
  grantContinue := fun _ _ _ => .error e0 }

/-- Like `okClient`, but outgoing payment creation fails upstream. -/
def failPayClient : Client := { okClient with
  outgoingPaymentCreate := fun _ _ _ _ => .error e0 }

/-!  Association-list lemmas shared by the claim proofs. -/

theorem mget_mdel_self (m : SessionMap) (k : String) : mget (mdel m k) k = none := by
  induction m with
  | nil => rfl
  | cons p t ih =>
    by_cases h : p.1 = k
    · simpa [mdel, h]
    · simpa [mdel, mget, h]

theorem mget_mdel_ne (m : SessionMap) (k k' : String) (h : k' ≠ k) :
    mget (mdel m k) k' = mget m k' := by
  induction m with
  | nil => rfl
  | cons p t ih =>
    by_cases hp : p.1 = k
    · simp [mdel, mget, hp, Ne.symm h, ih]
    · by_cases hp' : p.1 = k'
      · simp [mdel, mget, hp, hp', h]
      · simp [mdel, mget, hp, hp', ih]

/-- A `/pay/callback` request whose token misses the session map does nothing
and reports the session missing. -/
theorem payCallback_miss (cfg : Config) (st : ServerState) (s : String)
    (iref : Option String) (c : Client) (hs : s ≠ "")
    (hm : mget st.paySessions s = none) :
    payCallback cfg st (some s) iref c = (.sessionNotFound, st, []) := by
  simp [payCallback, hs, hm]

/-- A `/pago` request whose receivable id misses the registry does nothing
and reports no pending grant. -/
theorem pago_miss (cfg : Config) (st : ServerState) (k : String) (c : Client)
    (hm : mget st.pendingGrants k = none) :
    pago cfg st (some k) c = (.noPendingGrant, st, []) := by
  simp [pago, hm]

/-- A `/pay/callback` request can only succeed with a nonempty token, and then
the resulting state is the old one with exactly that session deleted. -/
theorem payCallback_success_inv (cfg : Config) (st : ServerState) (s : String)
    (iref : Option String) (c : Client) (pid : String) (st' : ServerState)
    (tr : List RemoteCall)
    (h : payCallback cfg st (some s) iref c = (.success pid, st', tr)) :
    s ≠ "" ∧ st' = { st with paySessions := mdel st.paySessions s } := by
  by_cases hs : s = ""
  · simp [payCallback, hs] at h
  · refine ⟨hs, ?_⟩
    rcases hm : mget st.paySessions s with _ | stash
    · simp [payCallback, hs, hm] at h
    · rcases hg : c.grantContinue stash.continueUri stash.continueAccessToken iref
        with e | g
      · simp [payCallback, hs, hm, hg] at h
      · rcases g with ⟨tok, cont⟩ | ⟨cont, redir⟩
        · rcases hw : c.walletGet cfg.sendingWalletUrl with e | sw
          · simp [payCallback, hs, hm, hg, hw] at h
          · rcases hp : c.outgoingPaymentCreate sw.resourceServer tok sw.id stash.quoteId
              with e | p
            · simp [payCallback, hs, hm, hg, hw, hp] at h
            · simp [payCallback, hs, hm, hg, hw, hp] at h
              exact h.2.1.symm
        · simp [payCallback, hs, hm, hg] at h

/-- A `/pago` request can only succeed when its key was in the registry, and
then the resulting state is the old one with exactly that entry deleted. -/
theorem pago_success_inv (cfg : Config) (st : ServerState) (k : String)
    (c : Client) (pid : String) (st' : ServerState) (tr : List RemoteCall)
    (h : pago cfg st (some k) c = (.success pid, st', tr)) :
    st' = { st with pendingGrants := mdel st.pendingGrants k } := by
  rcases hm : mget st.pendingGrants k with _ | stash
  · simp [pago, hm] at h
  · rcases hw : c.walletGet cfg.sendingWalletUrl with e | sw
    · simp [pago, hm, hw] at h
    · rcases hg : c.grantContinue stash.continueUri stash.continueAccessToken none
        with e | g
      · simp [pago, hm, hw, hg] at h
      · rcases g with ⟨tok, cont⟩ | ⟨cont, redir⟩
        · rcases hp : c.outgoingPaymentCreate sw.resourceServer tok sw.id stash.quoteId
            with e | p
          · simp [pago, hm, hw, hg, hp] at h
          · simp [pago, hm, hw, hg, hp] at h
            exact h.2.1.symm
        · simp [pago, hm, hw, hg] at h

/-!  Claim theorems. -/

/-- C1: a resume request that succeeds in creating a payment — `/pay/callback`
keyed by the flow token, `/pago` keyed by the receivable id — deletes exactly
its own session entry (that key gone, every other key untouched, the other
map untouched), so an immediately following second resume with the same key
yields `sessionNotFound` (respectively `noPendingGrant`) and makes no remote
call. -/
theorem resume_success_consumes_session :
    (∀ cfg st s iref c pid st' tr,
      payCallback cfg st (some s) iref c = (.success pid, st', tr) →
      mget st'.paySessions s = none ∧
      (∀ k, k ≠ s → mget st'.paySessions k = mget st.paySessions k) ∧
      st'.pendingGrants = st.pendingGrants ∧
      (∀ iref2 c2, payCallback cfg st' (some s) iref2 c2 = (.sessionNotFound, st', []))) ∧
    (∀ cfg st k c pid st' tr,
      pago cfg st (some k) c = (.success pid, st', tr) →
      mget st'.pendingGrants k = none ∧
      (∀ k2, k2 ≠ k → mget st'.pendingGrants k2 = mget st.pendingGrants k2) ∧
      st'.paySessions = st.paySessions ∧
      (∀ c2, pago cfg st' (some k) c2 = (.noPendingGrant, st', []))) := by
  constructor
  · intro cfg st s iref c pid st' tr h
    obtain ⟨hs, hst⟩ := payCallback_success_inv cfg st s iref c pid st' tr h
    subst hst
    exact ⟨mget_mdel_self _ _, fun k hk => mget_mdel_ne _ _ _ hk, rfl,
      fun iref2 c2 => payCallback_miss cfg _ s iref2 c2 hs (mget_mdel_self _ _)⟩
  · intro cfg st k c pid st' tr h
    have hst := pago_success_inv cfg st k c pid st' tr h
    subst hst
    exact ⟨mget_mdel_self _ _, fun k2 hk => mget_mdel_ne _ _ _ hk, rfl,
      fun c2 => pago_miss cfg _ k c2 (mget_mdel_self _ _)⟩

theorem resume_success_consumes_session_witness :
    payCallback cfg0 ⟨[], [("ip1", stash0)]⟩ (some "t1") none okClient =
      (.sessionNotFound, ⟨[], [("ip1", stash0)]⟩, []) :=
  ((resume_success_consumes_session.1 cfg0 st0 "t1" (some "r") okClient "op1"
      ⟨[], [("ip1", stash0)]⟩
      [.grantContinue stash0.continueUri stash0.continueAccessToken (some "r"),
       .walletGet cfg0.sendingWalletUrl,
       .outgoingPaymentCreate senderW.resourceServer "FINAL-TOKEN" senderW.id stash0.quoteId]
      (by decide)).2.2.2) none okClient

/-- C2: when the grant continuation of `/pay/callback` returns a non-finalized
(pending) grant, the outcome is `consentIncomplete`, the only remote call made
is the continuation itself (so no payment is created), and the whole server
state — in particular the session under the token — is untouched, the session
remaining retrievable exactly as stored. -/
theorem consent_incomplete_preserves_session (cfg : Config) (st : ServerState)
    (s : String) (stash : Stash) (iref : Option String) (c : Client)
    (cont : Continuation) (redir : String) (hs : s ≠ "")
    (hm : mget st.paySessions s = some stash)
    (hg : c.grantContinue stash.continueUri stash.continueAccessToken iref =
      .ok (.pending cont redir)) :
    payCallback cfg st (some s) iref c =
      (.consentIncomplete, st,
        [.grantContinue stash.continueUri stash.continueAccessToken iref]) ∧
    mget (payCallback cfg st (some s) iref c).2.1.paySessions s = some stash := by
  constructor
  · simp [payCallback, hs, hm, hg]
  · simp [payCallback, hs, hm, hg]

theorem consent_incomplete_preserves_session_witness :
    payCallback cfg0 st0 (some "t1") (some "r") pendingClient =
      (.consentIncomplete, st0,
        [.grantContinue stash0.continueUri stash0.continueAccessToken (some "r")]) :=
  (consent_incomplete_preserves_session cfg0 st0 "t1" stash0 (some "r") pendingClient
    ⟨"https://auth.example/continue/2", "CT2"⟩ "https://auth.example/interact/2"
    (by decide) (by decide) rfl).1

/-- C3: a `/pay/callback` request whose flow token is absent, empty, or has no
matching session entry yields `sessionNotFound`, makes no remote call and
leaves the state untouched — identically whether the token never existed or
was already consumed (both cases hit the same guard and the same outcome). -/
theorem unknown_token_yields_session_not_found (cfg : Config) (st : ServerState)
    (iref : Option String) (c : Client) :
    payCallback cfg st none iref c = (.sessionNotFound, st, []) ∧
    (∀ s, (s = "" ∨ mget st.paySessions s = none) →
      payCallback cfg st (some s) iref c = (.sessionNotFound, st, [])) := by
  refine ⟨by simp [payCallback], fun s h => ?_⟩
  by_cases hs : s = ""
  · simp [payCallback, hs]
  · exact payCallback_miss cfg st s iref c hs (h.resolve_left hs)

theorem unknown_token_yields_session_not_found_witness :
    payCallback cfg0 st0 (some "t2") none okClient = (.sessionNotFound, st0, []) :=
  (unknown_token_yields_session_not_found cfg0 st0 none okClient).2 "t2"
    (Or.inr (by decide))

/-- C10: a `/pay/callback` request carrying a valid flow token but no
interaction reference is not rejected locally: the grant continuation is still
invoked, with the reference absent, and the outcome is dictated entirely by
the upstream response — upstream error, pending grant (`consentIncomplete`),
or a finalized grant followed by the payment-creation steps; it is never
`sessionNotFound`. -/
theorem resume_without_interaction_ref (cfg : Config) (st : ServerState)
    (s : String) (stash : Stash) (c : Client) (hs : s ≠ "")
    (hm : mget st.paySessions s = some stash) :
    (payCallback cfg st (some s) none c).2.2.head? =
      some (.grantContinue stash.continueUri stash.continueAccessToken none) ∧
    (payCallback cfg st (some s) none c).1 ≠ .sessionNotFound ∧
    (∀ e, c.grantContinue stash.continueUri stash.continueAccessToken none = .error e →
      (payCallback cfg st (some s) none c).1 = .upstreamError e) ∧
    (∀ cont redir,
      c.grantContinue stash.continueUri stash.continueAccessToken none =
        .ok (.pending cont redir) →
      (payCallback cfg st (some s) none c).1 = .consentIncomplete) ∧
    (∀ tok cont,
      c.grantContinue stash.continueUri stash.continueAccessToken none =
        .ok (.finalized tok cont) →
      (∃ pid, (payCallback cfg st (some s) none c).1 = .success pid) ∨
      (∃ e, (payCallback cfg st (some s) none c).1 = .upstreamError e)) := by
  rcases hg : c.grantContinue stash.continueUri stash.continueAccessToken none
    with e | g
  · simp [payCallback, hs, hm, hg]
  · rcases g with ⟨tok, cont⟩ | ⟨cont, redir⟩
    · rcases hw : c.walletGet cfg.sendingWalletUrl with e | sw
      · simp [payCallback, hs, hm, hg, hw]
      · rcases hp : c.outgoingPaymentCreate sw.resourceServer tok sw.id stash.quoteId
          with e | p
        · simp [payCallback, hs, hm, hg, hw, hp]
        · simp [payCallback, hs, hm, hg, hw, hp]
    · simp [payCallback, hs, hm, hg]

theorem resume_without_interaction_ref_witness :
    (payCallback cfg0 st0 (some "t1") none okClient).2.2.head? =
      some (.grantContinue stash0.continueUri stash0.continueAccessToken none) :=
  (resume_without_interaction_ref cfg0 st0 "t1" stash0 okClient (by decide)
    (by decide)).1

/-- Once the amount guard of `/linkpay` has passed, no later branch can
produce `invalidAmount`. -/
theorem linkpay_not_invalid (cfg : Config) (st : ServerState) (a : JSNum)
    (tok nonce : String) (sc rc : Client) (hv : amountInvalid a = false) :
    (linkpay cfg st a tok nonce sc rc).1 ≠ .invalidAmount := by
  simp only [linkpay, hv, Bool.false_eq_true, if_false]
  repeat' split
  all_goals simp

/-- Once the amount guard of `/quote` has passed, no later branch can produce
`invalidAmount`. -/
theorem quoteRoute_not_invalid (cfg : Config) (st : ServerState) (a : JSNum)
    (sc : Client) (hv : amountInvalid a = false) :
    (quoteRoute cfg st a sc).1 ≠ .invalidAmount := by
  simp only [quoteRoute, hv, Bool.false_eq_true, if_false]
  repeat' split
  all_goals simp

/-- The amount guard fires exactly on non-finite or non-positive numbers. -/
theorem amountInvalid_iff (a : JSNum) :
    amountInvalid a = true ↔ (a.isFinite = false ∨ a.le0 = true) := by
  cases a <;> simp [amountInvalid, JSNum.isFinite, JSNum.le0]

/-- C4: `/linkpay` and `/quote` answer `invalidAmount` exactly when the parsed
amount is non-finite (NaN — covering an absent or non-numeric parameter — or
an infinity) or satisfies the JavaScript comparison `amount <= 0`; in that
case they return at once, making no remote call and leaving the state
untouched, and every finite, strictly positive amount passes the guard. -/
theorem amount_validation (cfg : Config) (st : ServerState) (a : JSNum)
    (tok nonce : String) (sc rc : Client) :
    ((linkpay cfg st a tok nonce sc rc).1 = .invalidAmount ↔
      (a.isFinite = false ∨ a.le0 = true)) ∧
    ((a.isFinite = false ∨ a.le0 = true) →
      linkpay cfg st a tok nonce sc rc = (.invalidAmount, st, [])) ∧
    ((quoteRoute cfg st a sc).1 = .invalidAmount ↔
      (a.isFinite = false ∨ a.le0 = true)) ∧
    ((a.isFinite = false ∨ a.le0 = true) →
      quoteRoute cfg st a sc = (.invalidAmount, st, [])) := by
  by_cases hv : amountInvalid a = true
  · have h := (amountInvalid_iff a).mp hv
    refine ⟨⟨fun _ => h, fun _ => ?_⟩, fun _ => ?_, ⟨fun _ => h, fun _ => ?_⟩, fun _ => ?_⟩
      <;> simp [linkpay, quoteRoute, hv]
  · have hv' : amountInvalid a = false := by simpa using hv
    have h : ¬ (a.isFinite = false ∨ a.le0 = true) := fun hc =>
      hv ((amountInvalid_iff a).mpr hc)
    exact ⟨⟨fun hc => absurd hc (linkpay_not_invalid cfg st a tok nonce sc rc hv'),
        fun hc => absurd hc h⟩,
      fun hc => absurd hc h,
      ⟨fun hc => absurd hc (quoteRoute_not_invalid cfg st a sc hv'),
        fun hc => absurd hc h⟩,
      fun hc => absurd hc h⟩

/-- C6: in every flow reaching the spend-grant step, the outgoing-payment
grant request is sent to the sender's authorization server with a debit-amount
limit equal to the quote's `debitAmount` and an identifier equal to the
sender's wallet id.  `/linkpay` additionally sends an interaction request with
start mode `["redirect"]` and a finish callback URI
`BASE_URL ++ "/pay/callback?state=" ++ encodeURIComponent(flowToken)` carrying
the freshly generated flow token and the freshly generated nonce, stores the
session under that token, and returns the grant's interaction redirect URI;
`/quote` sends the same scoped access with a start-only interaction request. -/
theorem spend_grant_scoping :
    (∀ cfg st a tok nonce sc rc sw rw ipTok c1 ip qTok c2 quote c3 redir,
      amountInvalid a = false →
      sc.walletGet cfg.sendingWalletUrl = .ok sw →
      rc.walletGet cfg.receivingWalletUrl = .ok rw →
      rc.grantRequest rw.authServer .incomingPayment none = .ok (.finalized ipTok c1) →
      rc.incomingPaymentCreate rw.resourceServer ipTok rw.id
        ⟨rw.assetCode, rw.assetScale.getD 2, toMinor a (some (rw.assetScale.getD 2))⟩ =
        .ok ip →
      sc.grantRequest sw.authServer .quoteAccess none = .ok (.finalized qTok c2) →
      sc.quoteCreate sw.resourceServer qTok sw.id ip.id = .ok quote →
      sc.grantRequest sw.authServer (.outgoingPayment quote.debitAmount sw.id)
        (some ⟨["redirect"],
          some ⟨cfg.baseUrl ++ "/pay/callback?state=" ++ encodeURIComponent tok, nonce⟩⟩) =
        .ok (.pending c3 redir) →
      linkpay cfg st a tok nonce sc rc =
        (.redirect redir,
         ⟨mset st.paySessions tok ⟨c3.uri, c3.accessToken, quote.id⟩, st.pendingGrants⟩,
         [.walletGet cfg.sendingWalletUrl, .walletGet cfg.receivingWalletUrl,
          .grantRequest rw.authServer .incomingPayment none,
          .incomingPaymentCreate rw.resourceServer ipTok rw.id
            ⟨rw.assetCode, rw.assetScale.getD 2, toMinor a (some (rw.assetScale.getD 2))⟩,
          .grantRequest sw.authServer .quoteAccess none,
          .quoteCreate sw.resourceServer qTok sw.id ip.id,
          .grantRequest sw.authServer (.outgoingPayment quote.debitAmount sw.id)
            (some ⟨["redirect"],
              some ⟨cfg.baseUrl ++ "/pay/callback?state=" ++ encodeURIComponent tok,
                nonce⟩⟩)])) ∧
    (∀ cfg st a sc sw rw ipTok c1 ip qTok c2 quote c3 redir,
      amountInvalid a = false →
      sc.walletGet cfg.sendingWalletUrl = .ok sw →
      sc.walletGet cfg.receivingWalletUrl = .ok rw →
      sc.grantRequest rw.authServer .incomingPayment none = .ok (.finalized ipTok c1) →
      sc.incomingPaymentCreate rw.resourceServer ipTok rw.id
        ⟨rw.assetCode, rw.assetScale.getD 2, toMinor a (some (rw.assetScale.getD 2))⟩ =
        .ok ip →
      sc.grantRequest sw.authServer .quoteAccess none = .ok (.finalized qTok c2) →
      sc.quoteCreate sw.resourceServer qTok sw.id ip.id = .ok quote →
      sc.grantRequest sw.authServer (.outgoingPayment quote.debitAmount sw.id)
        (some ⟨["redirect"], none⟩) = .ok (.pending c3 redir) →
      quoteRoute cfg st a sc =
        (.ok ip.id quote.debitAmount redir,
         ⟨st.paySessions, mset st.pendingGrants ip.id ⟨c3.uri, c3.accessToken, quote.id⟩⟩,
         [.walletGet cfg.sendingWalletUrl, .walletGet cfg.receivingWalletUrl,
          .grantRequest rw.authServer .incomingPayment none,
          .incomingPaymentCreate rw.resourceServer ipTok rw.id
            ⟨rw.assetCode, rw.assetScale.getD 2, toMinor a (some (rw.assetScale.getD 2))⟩,
          .grantRequest sw.authServer .quoteAccess none,
          .quoteCreate sw.resourceServer qTok sw.id ip.id,
          .grantRequest sw.authServer (.outgoingPayment quote.debitAmount sw.id)
            (some ⟨["redirect"], none⟩)])) := by
  constructor
  · intro cfg st a tok nonce sc rc sw rw ipTok c1 ip qTok c2 quote c3 redir
      hv h1 h2 h3 h4 h5 h6 h7
    simp [linkpay, hv, h1, h2, h3, h4, h5, h6, h7, GrantResult.cont]
  · intro cfg st a sc sw rw ipTok c1 ip qTok c2 quote c3 redir
      hv h1 h2 h3 h4 h5 h6 h7
    simp [quoteRoute, hv, h1, h2, h3, h4, h5, h6, h7, GrantResult.cont]

theorem spend_grant_scoping_witness :
    linkpay cfg0 st0 (.num 100) "tok1" "nonce1" okClient okClient =
      (.redirect "https://auth.example/interact/1",
       ⟨[("tok1", stash0), ("t1", stash0)], [("ip1", stash0)]⟩,
       [.walletGet "https://wallet.example/sender",
        .walletGet "https://wallet.example/receiver",
        .grantRequest "https://auth.example/receiver" .incomingPayment none,
        .incomingPaymentCreate "https://rs.example/receiver" "GRANT-TOKEN"
          "https://wallet.example/receiver" ⟨"MXN", 2, "10000"⟩,
        .grantRequest "https://auth.example/sender" .quoteAccess none,
        .quoteCreate "https://rs.example/sender" "GRANT-TOKEN"
          "https://wallet.example/sender" "ip1",
        .grantRequest "https://auth.example/sender"
          (.outgoingPayment ⟨"MXN", 2, "10017"⟩ "https://wallet.example/sender")
          (some ⟨["redirect"],
            some ⟨"http://localhost:5500/pay/callback?state=tok1", "nonce1"⟩⟩)]) := by
  have h := spend_grant_scoping.1 cfg0 st0 (.num 100) "tok1" "nonce1" okClient okClient
    senderW receiverW "GRANT-TOKEN" ⟨"https://auth.example/continue/0", "CT0"⟩ ⟨"ip1"⟩
    "GRANT-TOKEN" ⟨"https://auth.example/continue/0", "CT0"⟩
    ⟨"https://rs.example/quote/1", ⟨"MXN", 2, "10017"⟩⟩
    ⟨"https://auth.example/continue/1", "CONT-TOKEN"⟩ "https://auth.example/interact/1"
    (by decide) rfl rfl rfl rfl rfl rfl rfl
  exact h.trans (by decide)

/-- C9: when the resolved receiving wallet carries no asset scale, both flow
variants proceed with the default scale 2 — not 0 — for the receivable's
declared amount and for the minor-unit conversion of the input amount: the
receivable-creation call they issue (the fourth remote call) carries
`assetScale = 2` and `value = toMinor a 2`. -/
theorem missing_asset_scale_defaults_to_two (cfg : Config) (st : ServerState)
    (a : JSNum) (tok nonce : String) (sc rc : Client) (sw rw : Wallet)
    (ipTok : String) (c1 : Continuation)
    (hv : amountInvalid a = false)
    (h1 : sc.walletGet cfg.sendingWalletUrl = .ok sw)
    (hscale : rw.assetScale = none) :
    (rc.walletGet cfg.receivingWalletUrl = .ok rw →
      rc.grantRequest rw.authServer .incomingPayment none = .ok (.finalized ipTok c1) →
      (linkpay cfg st a tok nonce sc rc).2.2.take 4 =
        [.walletGet cfg.sendingWalletUrl, .walletGet cfg.receivingWalletUrl,
         .grantRequest rw.authServer .incomingPayment none,
         .incomingPaymentCreate rw.resourceServer ipTok rw.id
           ⟨rw.assetCode, 2, toMinor a (some 2)⟩]) ∧
    (sc.walletGet cfg.receivingWalletUrl = .ok rw →
      sc.grantRequest rw.authServer .incomingPayment none = .ok (.finalized ipTok c1) →
      (quoteRoute cfg st a sc).2.2.take 4 =
        [.walletGet cfg.sendingWalletUrl, .walletGet cfg.receivingWalletUrl,
         .grantRequest rw.authServer .incomingPayment none,
         .incomingPaymentCreate rw.resourceServer ipTok rw.id
           ⟨rw.assetCode, 2, toMinor a (some 2)⟩]) := by
  constructor
  · intro h2 h3
    simp only [linkpay, hv, Bool.false_eq_true, if_false, h1, h2, h3, hscale,
      Option.getD]
    repeat' split
    all_goals simp
  · intro h2 h3
    simp only [quoteRoute, hv, Bool.false_eq_true, if_false, h1, h2, h3, hscale,
      Option.getD]
    repeat' split
    all_goals simp

theorem missing_asset_scale_defaults_to_two_witness :
    (linkpay cfg0 st0 (.num 100) "tok1" "nonce1" okClientNoScale okClientNoScale).2.2.take 4 =
      [.walletGet "https://wallet.example/sender",
       .walletGet "https://wallet.example/receiver",
       .grantRequest "https://auth.example/receiver" .incomingPayment none,
       .incomingPaymentCreate "https://rs.example/receiver" "GRANT-TOKEN"
         "https://wallet.example/receiver" ⟨"MXN", 2, "10000"⟩] := by
  have h := (missing_asset_scale_defaults_to_two cfg0 st0 (.num 100) "tok1" "nonce1"
    okClientNoScale okClientNoScale senderW receiverWNoScale "GRANT-TOKEN"
    ⟨"https://auth.example/continue/0", "CT0"⟩ (by decide) rfl rfl).1
    rfl rfl
  exact h.trans (by decide)

theorem amount_validation_witness :
    linkpay cfg0 st0 (.num (-5)) "t9" "n9" okClient okClient = (.invalidAmount, st0, []) ∧
    quoteRoute cfg0 st0 .nan okClient = (.invalidAmount, st0, []) :=
  ⟨(amount_validation cfg0 st0 (.num (-5)) "t9" "n9" okClient okClient).2.1
      (Or.inr (by decide)),
    (amount_validation cfg0 st0 .nan "t9" "n9" okClient okClient).2.2.2
      (Or.inl (by decide))⟩

/-- C7 (amended): every remote-call failure is surfaced to the immediate
caller as an `upstreamError` outcome carrying that upstream error — none is
silently swallowed — at whichever step it strikes: each of the seven remote
calls of `/linkpay`, the seven of `/quote`, the three of `/pay/callback` and
the three of `/pago` — all twenty remote call sites.  (The response does not
name the failing step; see the counterexample.) -/
theorem failures_surface_to_caller :
    (∀ cfg st a tok nonce sc rc e, amountInvalid a = false →
      sc.walletGet cfg.sendingWalletUrl = .error e →
      (linkpay cfg st a tok nonce sc rc).1 = .upstreamError e) ∧
    (∀ cfg st a tok nonce sc rc sw e, amountInvalid a = false →
      sc.walletGet cfg.sendingWalletUrl = .ok sw →
      rc.walletGet cfg.receivingWalletUrl = .error e →
      (linkpay cfg st a tok nonce sc rc).1 = .upstreamError e) ∧
    (∀ cfg st a tok nonce sc rc sw rw e, amountInvalid a = false →
      sc.walletGet cfg.sendingWalletUrl = .ok sw →
      rc.walletGet cfg.receivingWalletUrl = .ok rw →
      rc.grantRequest rw.authServer .incomingPayment none = .error e →
      (linkpay cfg st a tok nonce sc rc).1 = .upstreamError e) ∧
    (∀ cfg st a tok nonce sc rc sw rw ipTok c1 e, amountInvalid a = false →
      sc.walletGet cfg.sendingWalletUrl = .ok sw →
      rc.walletGet cfg.receivingWalletUrl = .ok rw →
      rc.grantRequest rw.authServer .incomingPayment none = .ok (.finalized ipTok c1) →
      rc.incomingPaymentCreate rw.resourceServer ipTok rw.id
        ⟨rw.assetCode, rw.assetScale.getD 2, toMinor a (some (rw.assetScale.getD 2))⟩ =
        .error e →
      (linkpay cfg st a tok nonce sc rc).1 = .upstreamError e) ∧
    (∀ cfg st a tok nonce sc rc sw rw ipTok c1 ip e, amountInvalid a = false →
      sc.walletGet cfg.sendingWalletUrl = .ok sw →
      rc.walletGet cfg.receivingWalletUrl = .ok rw →
      rc.grantRequest rw.authServer .incomingPayment none = .ok (.finalized ipTok c1) →
      rc.incomingPaymentCreate rw.resourceServer ipTok rw.id
        ⟨rw.assetCode, rw.assetScale.getD 2, toMinor a (some (rw.assetScale.getD 2))⟩ =
        .ok ip →
      sc.grantRequest sw.authServer .quoteAccess none = .error e →
      (linkpay cfg st a tok nonce sc rc).1 = .upstreamError e) ∧
    (∀ cfg st a tok nonce sc rc sw rw ipTok c1 ip qTok c2 e, amountInvalid a = false →
      sc.walletGet cfg.sendingWalletUrl = .ok sw →
      rc.walletGet cfg.receivingWalletUrl = .ok rw →
      rc.grantRequest rw.authServer .incomingPayment none = .ok (.finalized ipTok c1) →
      rc.incomingPaymentCreate rw.resourceServer ipTok rw.id
        ⟨rw.assetCode, rw.assetScale.getD 2, toMinor a (some (rw.assetScale.getD 2))⟩ =
        .ok ip →
      sc.grantRequest sw.authServer .quoteAccess none = .ok (.finalized qTok c2) →
      sc.quoteCreate sw.resourceServer qTok sw.id ip.id = .error e →
      (linkpay cfg st a tok nonce sc rc).1 = .upstreamError e) ∧
    (∀ cfg st a tok nonce sc rc sw rw ipTok c1 ip qTok c2 quote e,
      amountInvalid a = false →
      sc.walletGet cfg.sendingWalletUrl = .ok sw →
      rc.walletGet cfg.receivingWalletUrl = .ok rw →
      rc.grantRequest rw.authServer .incomingPayment none = .ok (.finalized ipTok c1) →
      rc.incomingPaymentCreate rw.resourceServer ipTok rw.id
        ⟨rw.assetCode, rw.assetScale.getD 2, toMinor a (some (rw.assetScale.getD 2))⟩ =
        .ok ip →
      sc.grantRequest sw.authServer .quoteAccess none = .ok (.finalized qTok c2) →
      sc.quoteCreate sw.resourceServer qTok sw.id ip.id = .ok quote →
      sc.grantRequest sw.authServer (.outgoingPayment quote.debitAmount sw.id)
        (some ⟨["redirect"],
          some ⟨cfg.baseUrl ++ "/pay/callback?state=" ++ encodeURIComponent tok,
            nonce⟩⟩) = .error e →
      (linkpay cfg st a tok nonce sc rc).1 = .upstreamError e) ∧
    (∀ cfg st a sc e, amountInvalid a = false →
      sc.walletGet cfg.sendingWalletUrl = .error e →
      (quoteRoute cfg st a sc).1 = .upstreamError e) ∧
    (∀ cfg st s stash iref c e, s ≠ "" → mget st.paySessions s = some stash →
      c.grantContinue stash.continueUri stash.continueAccessToken iref = .error e →
      (payCallback cfg st (some s) iref c).1 = .upstreamError e) ∧
    (∀ cfg st s stash iref c tok cont e, s ≠ "" →
      mget st.paySessions s = some stash →
      c.grantContinue stash.continueUri stash.continueAccessToken iref =
        .ok (.finalized tok cont) →
      c.walletGet cfg.sendingWalletUrl = .error e →
      (payCallback cfg st (some s) iref c).1 = .upstreamError e) ∧
    (∀ cfg st s stash iref c tok cont sw e, s ≠ "" →
      mget st.paySessions s = some stash →
      c.grantContinue stash.continueUri stash.continueAccessToken iref =
        .ok (.finalized tok cont) →
      c.walletGet cfg.sendingWalletUrl = .ok sw →
      c.outgoingPaymentCreate sw.resourceServer tok sw.id stash.quoteId = .error e →
      (payCallback cfg st (some s) iref c).1 = .upstreamError e) ∧
    (∀ cfg st k stash c sw e, mget st.pendingGrants k = some stash →
      c.walletGet cfg.sendingWalletUrl = .ok sw →
      c.grantContinue stash.continueUri stash.continueAccessToken none = .error e →
      (pago cfg st (some k) c).1 = .upstreamError e) ∧
    (∀ cfg st a sc sw e, amountInvalid a = false →
      sc.walletGet cfg.sendingWalletUrl = .ok sw →
      sc.walletGet cfg.receivingWalletUrl = .error e →
      (quoteRoute cfg st a sc).1 = .upstreamError e) ∧
    (∀ cfg st a sc sw rw e, amountInvalid a = false →
      sc.walletGet cfg.sendingWalletUrl = .ok sw →
      sc.walletGet cfg.receivingWalletUrl = .ok rw →
      sc.grantRequest rw.authServer .incomingPayment none = .error e →
      (quoteRoute cfg st a sc).1 = .upstreamError e) ∧
    (∀ cfg st a sc sw rw ipTok c1 e, amountInvalid a = false →
      sc.walletGet cfg.sendingWalletUrl = .ok sw →
      sc.walletGet cfg.receivingWalletUrl = .ok rw →
      sc.grantRequest rw.authServer .incomingPayment none = .ok (.finalized ipTok c1) →
      sc.incomingPaymentCreate rw.resourceServer ipTok rw.id
        ⟨rw.assetCode, rw.assetScale.getD 2, toMinor a (some (rw.assetScale.getD 2))⟩ =
        .error e →
      (quoteRoute cfg st a sc).1 = .upstreamError e) ∧
    (∀ cfg st a sc sw rw ipTok c1 ip e, amountInvalid a = false →
      sc.walletGet cfg.sendingWalletUrl = .ok sw →
      sc.walletGet cfg.receivingWalletUrl = .ok rw →
      sc.grantRequest rw.authServer .incomingPayment none = .ok (.finalized ipTok c1) →
      sc.incomingPaymentCreate rw.resourceServer ipTok rw.id
        ⟨rw.assetCode, rw.assetScale.getD 2, toMinor a (some (rw.assetScale.getD 2))⟩ =
        .ok ip →
      sc.grantRequest sw.authServer .quoteAccess none = .error e →
      (quoteRoute cfg st a sc).1 = .upstreamError e) ∧
    (∀ cfg st a sc sw rw ipTok c1 ip qTok c2 e, amountInvalid a = false →
      sc.walletGet cfg.sendingWalletUrl = .ok sw →
      sc.walletGet cfg.receivingWalletUrl = .ok rw →
      sc.grantRequest rw.authServer .incomingPayment none = .ok (.finalized ipTok c1) →
      sc.incomingPaymentCreate rw.resourceServer ipTok rw.id
        ⟨rw.assetCode, rw.assetScale.getD 2, toMinor a (some (rw.assetScale.getD 2))⟩ =
        .ok ip →
      sc.grantRequest sw.authServer .quoteAccess none = .ok (.finalized qTok c2) →
      sc.quoteCreate sw.resourceServer qTok sw.id ip.id = .error e →
      (quoteRoute cfg st a sc).1 = .upstreamError e) ∧
    (∀ cfg st a sc sw rw ipTok c1 ip qTok c2 quote e, amountInvalid a = false →
      sc.walletGet cfg.sendingWalletUrl = .ok sw →
      sc.walletGet cfg.receivingWalletUrl = .ok rw →
      sc.grantRequest rw.authServer .incomingPayment none = .ok (.finalized ipTok c1) →
      sc.incomingPaymentCreate rw.resourceServer ipTok rw.id
        ⟨rw.assetCode, rw.assetScale.getD 2, toMinor a (some (rw.assetScale.getD 2))⟩ =
        .ok ip →
      sc.grantRequest sw.authServer .quoteAccess none = .ok (.finalized qTok c2) →
      sc.quoteCreate sw.resourceServer qTok sw.id ip.id = .ok quote →
      sc.grantRequest sw.authServer (.outgoingPayment quote.debitAmount sw.id)
        (some ⟨["redirect"], none⟩) = .error e →
      (quoteRoute cfg st a sc).1 = .upstreamError e) ∧
    (∀ cfg st k stash c e, mget st.pendingGrants k = some stash →
      c.walletGet cfg.sendingWalletUrl = .error e →
      (pago cfg st (some k) c).1 = .upstreamError e) ∧
    (∀ cfg st k stash c sw tok cont e, mget st.pendingGrants k = some stash →
      c.walletGet cfg.sendingWalletUrl = .ok sw →
      c.grantContinue stash.continueUri stash.continueAccessToken none =
        .ok (.finalized tok cont) →
      c.outgoingPaymentCreate sw.resourceServer tok sw.id stash.quoteId = .error e →
      (pago cfg st (some k) c).1 = .upstreamError e) := by
  refine ⟨?_, ?_, ?_, ?_, ?_, ?_, ?_, ?_, ?_, ?_, ?_, ?_, ?_, ?_, ?_, ?_, ?_, ?_, ?_, ?_⟩
  · intro cfg st a tok nonce sc rc e hv h1
    simp [linkpay, hv, h1]
  · intro cfg st a tok nonce sc rc sw e hv h1 h2
    simp [linkpay, hv, h1, h2]
  · intro cfg st a tok nonce sc rc sw rw e hv h1 h2 h3
    simp [linkpay, hv, h1, h2, h3]
  · intro cfg st a tok nonce sc rc sw rw ipTok c1 e hv h1 h2 h3 h4
    simp [linkpay, hv, h1, h2, h3, h4]
  · intro cfg st a tok nonce sc rc sw rw ipTok c1 ip e hv h1 h2 h3 h4 h5
    simp [linkpay, hv, h1, h2, h3, h4, h5]
  · intro cfg st a tok nonce sc rc sw rw ipTok c1 ip qTok c2 e hv h1 h2 h3 h4 h5 h6
    simp [linkpay, hv, h1, h2, h3, h4, h5, h6]
  · intro cfg st a tok nonce sc rc sw rw ipTok c1 ip qTok c2 quote e
      hv h1 h2 h3 h4 h5 h6 h7
    simp [linkpay, hv, h1, h2, h3, h4, h5, h6, h7]
  · intro cfg st a sc e hv h1
    simp [quoteRoute, hv, h1]
  · intro cfg st s stash iref c e hs hm hg
    simp [payCallback, hs, hm, hg]
  · intro cfg st s stash iref c tok cont e hs hm hg hw
    simp [payCallback, hs, hm, hg, hw]
  · intro cfg st s stash iref c tok cont sw e hs hm hg hw hp
    simp [payCallback, hs, hm, hg, hw, hp]
  · intro cfg st k stash c sw e hm hw hg
    simp [pago, hm, hw, hg]
  · intro cfg st a sc sw e hv h1 h2
    simp [quoteRoute, hv, h1, h2]
  · intro cfg st a sc sw rw e hv h1 h2 h3
    simp [quoteRoute, hv, h1, h2, h3]
  · intro cfg st a sc sw rw ipTok c1 e hv h1 h2 h3 h4
    simp [quoteRoute, hv, h1, h2, h3, h4]
  · intro cfg st a sc sw rw ipTok c1 ip e hv h1 h2 h3 h4 h5
    simp [quoteRoute, hv, h1, h2, h3, h4, h5]
  · intro cfg st a sc sw rw ipTok c1 ip qTok c2 e hv h1 h2 h3 h4 h5 h6
    simp [quoteRoute, hv, h1, h2, h3, h4, h5, h6]
  · intro cfg st a sc sw rw ipTok c1 ip qTok c2 quote e hv h1 h2 h3 h4 h5 h6 h7
    simp [quoteRoute, hv, h1, h2, h3, h4, h5, h6, h7]
  · intro cfg st k stash c e hm hw
    simp [pago, hm, hw]
  · intro cfg st k stash c sw tok cont e hm hw hg hp
    simp [pago, hm, hw, hg, hp]

theorem failures_surface_to_caller_witness :
    (payCallback cfg0 st0 (some "t1") (some "r") failContinueClient).1 =
      .upstreamError e0 :=
  failures_surface_to_caller.2.2.2.2.2.2.2.2.1 cfg0 st0 "t1" stash0 (some "r")
    failContinueClient e0 (by decide) (by decide) rfl

/-- C7 (counterexample to the claim as stated): the caller-visible outcome
does not carry the name of the failing step.  A receivable-creation failure
(fourth remote call) and a spend-grant-request failure (seventh remote call)
with the same upstream error produce identical `/linkpay` outcomes, and a
grant-continuation failure and a payment-creation failure produce identical
`/pay/callback` outcomes — the caller cannot tell which step failed. -/
theorem failing_step_not_reported :
    (linkpay cfg0 st0 (.num 100) "t9" "n9" failReceivableClient failReceivableClient).1 =
      (linkpay cfg0 st0 (.num 100) "t9" "n9" failSpendGrantClient failSpendGrantClient).1 ∧
    (linkpay cfg0 st0 (.num 100) "t9" "n9"
        failReceivableClient failReceivableClient).2.2.length = 4 ∧
    (linkpay cfg0 st0 (.num 100) "t9" "n9"
        failSpendGrantClient failSpendGrantClient).2.2.length = 7 ∧
    (payCallback cfg0 st0 (some "t1") (some "r") failContinueClient).1 =
      (payCallback cfg0 st0 (some "t1") (some "r") failPayClient).1 ∧
    (payCallback cfg0 st0 (some "t1") (some "r") failContinueClient).2.2.length = 1 ∧
    (payCallback cfg0 st0 (some "t1") (some "r") failPayClient).2.2.length = 3 := by
  decide

/-- C5: the minor-unit conversion is performed in binary floating point and
does lose precision.  At the double nearest the decimal 1.005 with asset
scale 2 the code produces "100", while the exact mathematical value
`round(1.005 × 10^2) = round(100.5)` is 101.  (The spec's own example,
100.00 at scale 2 ↦ "10000", is unaffected.) -/
theorem toMinor_loses_precision :
    toMinor (.num (fl (201 / 200))) (some 2) = "100" ∧
    jsRound ((201 / 200) * 10 ^ 2) = 101 ∧
    toMinor (.num 100) (some 2) = "10000" := by
  decide

/-- Running a single `/pay/callback` request through the interleaving model
(four slices from `start`, with no other request interleaved) produces exactly
the handler's outcome and final session map: `threadStep` is `payCallback`
cut at its `await`s. -/
theorem runSched_single_refines_payCallback (cfg : Config) (pg m : SessionMap)
    (state? iref : Option String) (c : Client) :
    (runSched ⟨cfg, state?, iref, c⟩ ⟨cfg, state?, iref, c⟩
      [true, true, true, true] m .start (.finished .sessionNotFound) 0).1 =
      (payCallback cfg ⟨m, pg⟩ state? iref c).2.1.paySessions ∧
    (runSched ⟨cfg, state?, iref, c⟩ ⟨cfg, state?, iref, c⟩
      [true, true, true, true] m .start (.finished .sessionNotFound) 0).2.1 =
      .finished (payCallback cfg ⟨m, pg⟩ state? iref c).1 := by
  rcases state? with _ | s
  · simp [runSched, threadStep, payCallback]
  · by_cases hs : s = ""
    · simp [runSched, threadStep, payCallback, hs]
    · rcases hm : mget m s with _ | stash
      · simp [runSched, threadStep, payCallback, hs, hm]
      · rcases hg : c.grantContinue stash.continueUri stash.continueAccessToken iref
          with e | g
        · simp [runSched, threadStep, payCallback, hs, hm, hg]
        · rcases g with ⟨tok, cont⟩ | ⟨cont, redir⟩
          · rcases hw : c.walletGet cfg.sendingWalletUrl with e | sw
            · simp [runSched, threadStep, payCallback, hs, hm, hg, hw]
            · rcases hp : c.outgoingPaymentCreate sw.resourceServer tok sw.id
                stash.quoteId with e | p
              · simp [runSched, threadStep, payCallback, hs, hm, hg, hw, hp]
              · simp [runSched, threadStep, payCallback, hs, hm, hg, hw, hp]
          · simp [runSched, threadStep, payCallback, hs, hm, hg]

/-- C8: two simultaneous `/pay/callback` requests for the same valid token,
interleaved slice-by-slice (each passes the session lookup before either
deletes), both finalize and both create an outgoing payment: the run ends
with two successes and two payments, not one success and one
`sessionNotFound`.  A strictly sequential schedule of the same two requests
does yield one success and one `sessionNotFound`. -/
theorem concurrent_resumes_both_create_payments :
    runSched ⟨cfg0, some "t1", some "rA", okClient⟩ ⟨cfg0, some "t1", some "rB", okClient⟩
      [true, false, true, false, true, false, true, false]
      [("t1", stash0)] .start .start 0 =
      ([], .finished (.success "op1"), .finished (.success "op1"), 2) ∧
    runSched ⟨cfg0, some "t1", some "rA", okClient⟩ ⟨cfg0, some "t1", some "rB", okClient⟩
      [true, true, true, true, false, false, false, false]
      [("t1", stash0)] .start .start 0 =
      ([], .finished (.success "op1"), .finished .sessionNotFound, 1) := by
  decide

end LinkPay
